import Mathlib

/-!
Shallow embedding of the request-analysis reconciliation pipeline of the
employee-scheduling frontend (src/frontend/app/types/index.ts and
src/frontend/app/routes/home.tsx).

Modelling conventions:
* TypeScript interfaces become Lean structures; the `AIResponse` discriminated
  union becomes a Lean inductive with one constructor per `type` tag.
* The React component's `useState` hooks that the core reads or writes
  (`employees`, `schedules`, `rules`, `changeResponse`, `error`, `openModal`)
  become the fields of `PipelineState`; each async handler becomes a pure
  function from the prior state and the results of its awaited collaborator
  calls to the next state, paired with the trace of collaborator calls it
  makes (a `List CollabCall`).
* Collaborator calls (`processScheduleChange`, `processTextRequest`,
  `fetchSchedules`, `getDBChange`, `updateDBChange`) live in the `~/api`
  module, which is outside the two source files; their outcomes are passed in
  as `Except Unit _` oracle arguments (`.error` = rejected promise).
* JavaScript property access on a union value that may lack the field
  (`response.analysis.recommendation`, `.changes`) evaluates to `undefined`
  on the variants that do not carry it; this is modelled by `Option`-valued
  accessors returning `none` exactly on those variants.
-/

namespace Scheduling

/-- `Employee` from src/frontend/app/types/index.ts.  The open
`metadata: Record<string, any>` bag is modelled as a string key-value list. -/
structure Employee where
  name : String
  employee_number : String
  first_line_support_count : Nat
  known_absences : List String
  metadata : List (String × String)
deriving Repr, DecidableEq

/-- `Schedule` from src/frontend/app/types/index.ts. -/
structure Schedule where
  date : String
  first_line_support : String
deriving Repr, DecidableEq

/-- `Rules` from src/frontend/app/types/index.ts (`preferred_balance` is a
fraction, modelled as a rational). -/
structure Rules where
  max_days_per_week : Nat
  preferred_balance : Rat
deriving Repr, DecidableEq

/-- `ScheduleWithEmployee` from src/frontend/app/types/index.ts:
`Schedule` augmented with the derived `employee_name` (flattened here). -/
structure ScheduleWithEmployee where
  date : String
  first_line_support : String
  employee_name : String
deriving Repr, DecidableEq

/-- `BaseResponse` from src/frontend/app/types/index.ts. -/
structure BaseResponse where
  thoughts : String
  original_query : String
  response : String
  reasoning : String
deriving Repr, DecidableEq

/-- `ScheduleChange` from src/frontend/app/types/index.ts. -/
structure ScheduleChange where
  employee_name : String
  target_date : String
  suggested_replacement : String
deriving Repr, DecidableEq

/-- The `"approve" | "deny" | "discuss"` literal union on
`ScheduleChangeAnalysis.recommendation`. -/
inductive Recommendation where
  | approve
  | deny
  | discuss
deriving Repr, DecidableEq

/-- `AIResponse` from src/frontend/app/types/index.ts: the closed union of
`QuestionResponse | OtherResponse | ComplaintResponse | ScheduleChangeAnalysis`,
with the `type` string literal as the constructor tag. -/
inductive AIResponse where
  | question (base : BaseResponse)
  | other (base : BaseResponse)
  | complaint (base : BaseResponse) (solution_proposal : String)
  | schedulechange (base : BaseResponse) (changes : List ScheduleChange)
      (recommendation : Recommendation)
deriving Repr, DecidableEq

/-- `ScheduleChangeResponse` from src/frontend/app/types/index.ts. -/
structure ScheduleChangeResponse where
  request : String
  analysis : AIResponse
deriving Repr, DecidableEq

/-- JS access `analysis.recommendation` on an `AIResponse` value: `undefined`
(`none`) unless the variant is `schedulechange`. -/
def analysisRecommendation : AIResponse → Option Recommendation
  | .schedulechange _ _ r => some r
  | _ => none

/-- JS access `analysis.changes` on an `AIResponse` value: `undefined`
(`none`) unless the variant is `schedulechange`. -/
def analysisChanges : AIResponse → Option (List ScheduleChange)
  | .schedulechange _ cs _ => some cs
  | _ => none

/-- JavaScript `String.prototype.trim`: strip whitespace from both ends.
Modelled over the character list (kernel-reducible, unlike `String.trim`).
The handlers' blank check `!changeRequest.trim()` is falsiness of the trimmed
string, i.e. `jsTrim changeRequest = ""`. -/
def jsTrim (s : String) : String :=
  String.mk
    (((s.data.dropWhile Char.isWhitespace).reverse.dropWhile
        Char.isWhitespace).reverse)

/-- The per-entry body of the `schedulesData.map((schedule) => ...)` join that
appears verbatim in `loadData`, `test`, `apply`, `handleChangeRequest` and
`handleUserTextRequest` in src/frontend/app/routes/home.tsx: look up the
employee by `employee_number === schedule.first_line_support` and attach
`employee_name`, with the `"Unknown Employee"` fallback when `find` returns
`undefined`. -/
def joinOne (employees : List Employee) (schedule : Schedule) :
    ScheduleWithEmployee :=
  match employees.find? (fun emp =>
      emp.employee_number == schedule.first_line_support) with
  | some employee =>
      { date := schedule.date
        first_line_support := schedule.first_line_support
        employee_name := employee.name }
  | none =>
      { date := schedule.date
        first_line_support := schedule.first_line_support
        employee_name := "Unknown Employee" }

/-- The full `schedulesWithNames` computation (the spec's Identity Joiner,
§4.1): map `joinOne` over the fetched schedule rows. -/
def joinSchedules (employees : List Employee) (schedulesData : List Schedule) :
    List ScheduleWithEmployee :=
  schedulesData.map (joinOne employees)

/-- The React state the core reads and writes in
src/frontend/app/routes/home.tsx. -/
structure PipelineState where
  employees : List Employee
  schedules : List ScheduleWithEmployee
  rules : Option Rules
  changeResponse : Option ScheduleChangeResponse
  error : Option String
  openModal : Bool
deriving Repr, DecidableEq

/-- One collaborator call crossing the system boundary (functions imported
from `~/api` in src/frontend/app/routes/home.tsx). -/
inductive CollabCall where
  | fetchEmployeesCall
  | fetchSchedulesCall (date : String)
  | fetchRulesCall
  | processScheduleChangeCall (text : String)
  | processTextRequestCall (text : String)
  | getDBCall (text : String)
  | updateDBCall (text : String)
deriving Repr, DecidableEq

/-- The refresh guard of `handleChangeRequest`
(src/frontend/app/routes/home.tsx lines 200-204):
`response.analysis.recommendation === "approve" && response.analysis.changes
&& response.analysis.changes.length > 0`.  `undefined`-valued accesses compare
unequal / are falsy; an array is truthy even when empty. -/
def refreshGuardChange (a : AIResponse) : Bool :=
  (analysisRecommendation a == some Recommendation.approve)
    && (match analysisChanges a with
        | some cs => decide (cs.length > 0)
        | none => false)

/-- The refresh guard of `handleUserTextRequest`
(src/frontend/app/routes/home.tsx lines 244-248), textually identical to the
one in `handleChangeRequest`. -/
def refreshGuardText (a : AIResponse) : Bool :=
  (analysisRecommendation a == some Recommendation.approve)
    && (match analysisChanges a with
        | some cs => decide (cs.length > 0)
        | none => false)

/-- `loadData` (src/frontend/app/routes/home.tsx lines 145-177): fetch
employees, schedules and rules in parallel, join the schedules against the
freshly fetched employees, and store everything; on any fetch failure the
catch block only records the load-failure message. -/
def loadData (st : PipelineState)
    (fetched : Except Unit (List Employee × List Schedule × Rules))
    (today : String) :
    PipelineState × List CollabCall :=
  match fetched with
  | .error _ =>
      ({ st with error := some "Failed to load data. Please try again later." },
       [CollabCall.fetchEmployeesCall, CollabCall.fetchSchedulesCall today,
        CollabCall.fetchRulesCall])
  | .ok (employeesData, schedulesData, rulesData) =>
      ({ st with
          employees := employeesData
          schedules := joinSchedules employeesData schedulesData
          rules := some rulesData },
       [CollabCall.fetchEmployeesCall, CollabCall.fetchSchedulesCall today,
        CollabCall.fetchRulesCall])

/-- `test` (src/frontend/app/routes/home.tsx lines 107-125): call
`getDBChange`, re-fetch schedules for today, join against the *current*
employees snapshot and replace the displayed schedules.  There is no
try/catch, so a rejected await escapes (`Except.error`). -/
def test (st : PipelineState) (changeRequest : String)
    (getDB : Except Unit Unit) (refetch : Except Unit (List Schedule))
    (today : String) :
    Except Unit (PipelineState × List CollabCall) :=
  match getDB with
  | .error e => .error e
  | .ok _ =>
      match refetch with
      | .error e => .error e
      | .ok schedulesData =>
          .ok ({ st with schedules := joinSchedules st.employees schedulesData },
               [CollabCall.getDBCall changeRequest,
                CollabCall.fetchSchedulesCall today])

/-- `apply` (src/frontend/app/routes/home.tsx lines 126-143), the spec's
Reconciliation step (§4.4): one `updateDBChange` call carrying the whole
request, then re-fetch schedules for today, join against the current
employees snapshot and replace the displayed schedules.  No try/catch, so a
rejected await escapes (`Except.error`). -/
def apply (st : PipelineState) (changeRequest : String)
    (updateDB : Except Unit Unit) (refetch : Except Unit (List Schedule))
    (today : String) :
    Except Unit (PipelineState × List CollabCall) :=
  match updateDB with
  | .error e => .error e
  | .ok _ =>
      match refetch with
      | .error e => .error e
      | .ok schedulesData =>
          .ok ({ st with schedules := joinSchedules st.employees schedulesData },
               [CollabCall.updateDBCall changeRequest,
                CollabCall.fetchSchedulesCall today])

/-- `handleChangeRequest` (src/frontend/app/routes/home.tsx lines 184-227):
bail out on blank text before any call; otherwise call
`processScheduleChange`, record the response, open the result modal, and when
the approve guard holds re-fetch schedules and re-join against the current
employees snapshot.  The catch block converts any awaited failure into the
generic error message. -/
def handleChangeRequest (st : PipelineState) (changeRequest : String)
    (analyze : Except Unit ScheduleChangeResponse)
    (refetch : Except Unit (List Schedule)) (today : String) :
    PipelineState × List CollabCall :=
  if jsTrim changeRequest = "" then (st, [])
  else
    match analyze with
    | .error _ =>
        ({ st with error := some "Failed to process schedule change request." },
         [CollabCall.processScheduleChangeCall changeRequest])
    | .ok response =>
        let st1 := { st with
          error := none
          changeResponse := some response
          openModal := true }
        if refreshGuardChange response.analysis then
          match refetch with
          | .error _ =>
              ({ st1 with
                  error := some "Failed to process schedule change request." },
               [CollabCall.processScheduleChangeCall changeRequest,
                CollabCall.fetchSchedulesCall today])
          | .ok schedulesData =>
              ({ st1 with
                  schedules := joinSchedules st.employees schedulesData },
               [CollabCall.processScheduleChangeCall changeRequest,
                CollabCall.fetchSchedulesCall today])
        else (st1, [CollabCall.processScheduleChangeCall changeRequest])

/-- `handleUserTextRequest` (src/frontend/app/routes/home.tsx lines 229-271):
identical to `handleChangeRequest` except that it calls `processTextRequest`
and does not open the result modal. -/
def handleUserTextRequest (st : PipelineState) (changeRequest : String)
    (analyze : Except Unit ScheduleChangeResponse)
    (refetch : Except Unit (List Schedule)) (today : String) :
    PipelineState × List CollabCall :=
  if jsTrim changeRequest = "" then (st, [])
  else
    match analyze with
    | .error _ =>
        ({ st with error := some "Failed to process schedule change request." },
         [CollabCall.processTextRequestCall changeRequest])
    | .ok response =>
        let st1 := { st with
          error := none
          changeResponse := some response }
        if refreshGuardText response.analysis then
          match refetch with
          | .error _ =>
              ({ st1 with
                  error := some "Failed to process schedule change request." },
               [CollabCall.processTextRequestCall changeRequest,
                CollabCall.fetchSchedulesCall today])
          | .ok schedulesData =>
              ({ st1 with
                  schedules := joinSchedules st.employees schedulesData },
               [CollabCall.processTextRequestCall changeRequest,
                CollabCall.fetchSchedulesCall today])
        else (st1, [CollabCall.processTextRequestCall changeRequest])

/-- Decoding error taxonomy of §7: a contract violation from the analysis
collaborator. -/
inductive DecodeError where
  | malformedResponse
deriving Repr, DecidableEq

/-- A raw decoded JSON payload from the text-analysis collaborator, before
validation.  Each field of the known shapes may be absent (`none`); `changes`
may additionally hold a non-sequence value (`RawChangesField.notSeq`). -/
inductive RawChangesField where
  | seq (items : List ScheduleChange)
  | notSeq
deriving Repr, DecidableEq

/-- Raw payload shape fed to the validation boundary. -/
structure RawPayload where
  type : Option String
  thoughts : Option String
  original_query : Option String
  response : Option String
  reasoning : Option String
  solution_proposal : Option String
  recommendation : Option String
  changes : Option RawChangesField
deriving Repr, DecidableEq

/-- Modelled from the spec: the shared-base part of the validation boundary
of §4.2 (the runtime decoder lives in the `~/api` module, which is not among
the two source files).  All four base fields are required; an absent required
field is an error, never a default. -/
def decodeBase (p : RawPayload) : Except DecodeError BaseResponse :=
  match p.thoughts, p.original_query, p.response, p.reasoning with
  | some t, some q, some r, some rs =>
      .ok { thoughts := t, original_query := q, response := r, reasoning := rs }
  | _, _, _, _ => .error .malformedResponse

/-- Modelled from the spec: `recommendation` must be one of the three
enumerated literals (§4.2); anything else, including absence, is a
`MalformedResponse`. -/
def decodeRecommendation (o : Option String) :
    Except DecodeError Recommendation :=
  match o with
  | none => .error .malformedResponse
  | some r =>
      if r = "approve" then .ok .approve
      else if r = "deny" then .ok .deny
      else if r = "discuss" then .ok .discuss
      else .error .malformedResponse

/-- Modelled from the spec: `changes` must be a sequence, possibly empty
(§4.2). -/
def decodeChanges (o : Option RawChangesField) :
    Except DecodeError (List ScheduleChange) :=
  match o with
  | some (.seq items) => .ok items
  | _ => .error .malformedResponse

/-- Modelled from the spec: the validation boundary of §4.2 narrowing an
arbitrary decoded payload into exactly one `AIResponse` variant (the runtime
decoder lives in the `~/api` module, which is not among the two source
files).  `type` is the sole discriminant; a missing or unknown tag, or a
`schedulechange` payload with a bad `recommendation` or non-sequence
`changes`, fails with `MalformedResponse`. -/
def decodeAIResponse (p : RawPayload) : Except DecodeError AIResponse :=
  match p.type with
  | none => .error .malformedResponse
  | some t =>
      if t = "question" then
        match decodeBase p with
        | .ok b => .ok (.question b)
        | .error e => .error e
      else if t = "other" then
        match decodeBase p with
        | .ok b => .ok (.other b)
        | .error e => .error e
      else if t = "complaint" then
        match decodeBase p, p.solution_proposal with
        | .ok b, some s => .ok (.complaint b s)
        | .ok _, none => .error .malformedResponse
        | .error e, _ => .error e
      else if t = "schedulechange" then
        match decodeBase p, decodeChanges p.changes,
              decodeRecommendation p.recommendation with
        | .ok b, .ok cs, .ok r => .ok (.schedulechange b cs r)
        | .error e, _, _ => .error e
        | _, .error e, _ => .error e
        | _, _, .error e => .error e
      else .error .malformedResponse

/-! ## Sample data used by witnesses -/

/-- Sample employee (scenario of spec §8). -/
def sampleEmployee : Employee :=
  { name := "Alice", employee_number := "E1", first_line_support_count := 0,
    known_absences := [], metadata := [] }

/-- Sample schedule row (scenario of spec §8). -/
def sampleSchedule : Schedule :=
  { date := "2024-01-05", first_line_support := "E1" }

/-- Sample pipeline state after an initial load. -/
def sampleState : PipelineState :=
  { employees := [sampleEmployee], schedules := [], rules := none,
    changeResponse := none, error := none, openModal := false }

/-- Sample shared base fields. -/
def sampleBase : BaseResponse :=
  { thoughts := "t", original_query := "q", response := "r", reasoning := "why" }

/-- Sample proposed edit (scenario of spec §8). -/
def sampleChange : ScheduleChange :=
  { employee_name := "Alice", target_date := "2024-01-05",
    suggested_replacement := "Bob" }

/-- Sample approved schedule-change analysis response. -/
def sampleApproveResponse : ScheduleChangeResponse :=
  { request := "req",
    analysis := AIResponse.schedulechange sampleBase [sampleChange]
      Recommendation.approve }

/-! ## Helper lemmas about the Identity Joiner and the refresh guard -/

/-- If no employee in the snapshot matches the entry, the join falls back to
the sentinel. -/
lemma joinOne_no_match (employees : List Employee) (entry : Schedule)
    (h : ∀ emp, emp ∈ employees →
      emp.employee_number ≠ entry.first_line_support) :
    (joinOne employees entry).employee_name = "Unknown Employee" := by
  have hfind : employees.find? (fun emp =>
      emp.employee_number == entry.first_line_support) = none := by
    rw [List.find?_eq_none]
    intro emp hmem
    simpa using h emp hmem
  simp [joinOne, hfind]

/-- With unique employee numbers, the join resolves a matching employee's
name. -/
lemma joinOne_match (employees : List Employee) (entry : Schedule)
    (emp : Employee)
    (huniq : employees.Pairwise
      (fun a b => a.employee_number ≠ b.employee_number))
    (hmem : emp ∈ employees)
    (hnum : emp.employee_number = entry.first_line_support) :
    (joinOne employees entry).employee_name = emp.name := by
  unfold joinOne
  cases hfind : employees.find? (fun e =>
      e.employee_number == entry.first_line_support) with
  | none =>
      exfalso
      have := List.find?_eq_none.mp hfind emp hmem
      simp [hnum] at this
  | some e =>
      have hpe := List.find?_some hfind
      have hme : e ∈ employees := List.mem_of_find?_eq_some hfind
      have heq : e = emp := by
        by_contra hne
        have hsym : Symmetric
            (fun a b : Employee => a.employee_number ≠ b.employee_number) :=
          fun a b hab => Ne.symm hab
        have := huniq.forall hsym hme hmem hne
        exact this ((eq_of_beq hpe).trans hnum.symm)
      simp [heq]

/-- The join always yields either a member employee's name or the sentinel. -/
lemma joinOne_name_cases (employees : List Employee) (entry : Schedule) :
    (∃ emp, emp ∈ employees ∧
      (joinOne employees entry).employee_name = emp.name)
    ∨ (joinOne employees entry).employee_name = "Unknown Employee" := by
  unfold joinOne
  cases hfind : employees.find? (fun e =>
      e.employee_number == entry.first_line_support) with
  | none => right; rfl
  | some e => exact Or.inl ⟨e, List.mem_of_find?_eq_some hfind, rfl⟩

/-- Truth of the text handler's refresh guard, characterized over the decoded
union: it holds exactly on an approved `schedulechange` with non-empty
`changes`. -/
lemma refreshGuardText_iff (a : AIResponse) :
    refreshGuardText a = true ↔
      ∃ b cs, a = AIResponse.schedulechange b cs Recommendation.approve
        ∧ cs ≠ [] := by
  cases a with
  | question b => simp [refreshGuardText, analysisRecommendation, analysisChanges]
  | other b => simp [refreshGuardText, analysisRecommendation, analysisChanges]
  | complaint b s => simp [refreshGuardText, analysisRecommendation, analysisChanges]
  | schedulechange b cs r =>
      cases r
      all_goals
        simp [refreshGuardText, analysisRecommendation, analysisChanges,
          List.length_pos]
      all_goals aesop

/-- The two guards are one and the same predicate. -/
lemma refreshGuardChange_eq_text : refreshGuardChange = refreshGuardText := by
  funext a
  rfl

/-- Unfolding of the text handler on a successful analysis whose guard is
false. -/
lemma handleUserTextRequest_guard_false (st : PipelineState) (text : String)
    (resp : ScheduleChangeResponse) (refetch : Except Unit (List Schedule))
    (today : String) (h : jsTrim text ≠ "")
    (hg : refreshGuardText resp.analysis = false) :
    handleUserTextRequest st text (Except.ok resp) refetch today
      = ({ st with error := none, changeResponse := some resp },
         [CollabCall.processTextRequestCall text]) := by
  simp [handleUserTextRequest, h, hg]

/-- Unfolding of the text handler on a successful analysis whose guard is
true and a successful re-fetch. -/
lemma handleUserTextRequest_guard_true_ok (st : PipelineState) (text : String)
    (resp : ScheduleChangeResponse) (schedulesData : List Schedule)
    (today : String) (h : jsTrim text ≠ "")
    (hg : refreshGuardText resp.analysis = true) :
    handleUserTextRequest st text (Except.ok resp) (Except.ok schedulesData)
        today
      = ({ st with
            error := none
            changeResponse := some resp
            schedules := joinSchedules st.employees schedulesData },
         [CollabCall.processTextRequestCall text,
          CollabCall.fetchSchedulesCall today]) := by
  simp [handleUserTextRequest, h, hg]

/-- Unfolding of the text handler on a successful analysis whose guard is
true and a failing re-fetch (the catch block records the generic message). -/
lemma handleUserTextRequest_guard_true_err (st : PipelineState) (text : String)
    (resp : ScheduleChangeResponse) (today : String) (h : jsTrim text ≠ "")
    (hg : refreshGuardText resp.analysis = true) :
    handleUserTextRequest st text (Except.ok resp) (Except.error ()) today
      = ({ st with
            error := some "Failed to process schedule change request."
            changeResponse := some resp },
         [CollabCall.processTextRequestCall text,
          CollabCall.fetchSchedulesCall today]) := by
  simp [handleUserTextRequest, h, hg]

/-! ## Claim theorems -/

/-- C1: for every non-blank request, the freeform pipeline triggers the
schedule re-fetch if and only if the decoded analysis is a `schedulechange`
with recommendation `approve` and a non-empty `changes` list; in every other
case the session keeps its recorded response with no error (`analyzed`) and
the displayed schedules are untouched. -/
theorem approve_guard_triggers_refresh_iff (st : PipelineState)
    (text : String) (resp : ScheduleChangeResponse)
    (refetch : Except Unit (List Schedule)) (today : String)
    (h : jsTrim text ≠ "") :
    (CollabCall.fetchSchedulesCall today
        ∈ (handleUserTextRequest st text (Except.ok resp) refetch today).2
      ↔ ∃ b cs, resp.analysis
          = AIResponse.schedulechange b cs Recommendation.approve
          ∧ cs ≠ [])
    ∧ (¬ (∃ b cs, resp.analysis
          = AIResponse.schedulechange b cs Recommendation.approve
          ∧ cs ≠ []) →
        (handleUserTextRequest st text (Except.ok resp) refetch today).1.schedules
          = st.schedules
        ∧ (handleUserTextRequest st text (Except.ok resp) refetch
            today).1.changeResponse = some resp
        ∧ (handleUserTextRequest st text (Except.ok resp) refetch
            today).1.error = none) := by
  have hmem : CollabCall.fetchSchedulesCall today
      ∈ (handleUserTextRequest st text (Except.ok resp) refetch today).2
      ↔ refreshGuardText resp.analysis = true := by
    by_cases hg : refreshGuardText resp.analysis
    · cases refetch with
      | error e => rw [handleUserTextRequest_guard_true_err st text resp today h hg]; simp [hg]
      | ok sd => rw [handleUserTextRequest_guard_true_ok st text resp sd today h hg]; simp [hg]
    · rw [handleUserTextRequest_guard_false st text resp refetch today h
        (Bool.not_eq_true _ ▸ hg)]
      simp [hg]
  constructor
  · exact hmem.trans (refreshGuardText_iff resp.analysis)
  · intro hcond
    have hg : refreshGuardText resp.analysis = false := by
      rcases Bool.eq_false_or_eq_true (refreshGuardText resp.analysis) with ht | hf
      · exact absurd ((refreshGuardText_iff resp.analysis).mp ht) hcond
      · exact hf
    rw [handleUserTextRequest_guard_false st text resp refetch today h hg]
    exact ⟨rfl, rfl, rfl⟩

/-- Witness for C1: a non-blank request with an approved non-empty
schedule-change response makes the re-fetch call. -/
theorem approve_guard_triggers_refresh_iff_witness :
    jsTrim "hello" ≠ ""
    ∧ (CollabCall.fetchSchedulesCall "2024-01-05"
        ∈ (handleUserTextRequest sampleState "hello"
            (Except.ok sampleApproveResponse) (Except.ok [])
            "2024-01-05").2
      ↔ ∃ b cs, sampleApproveResponse.analysis
          = AIResponse.schedulechange b cs Recommendation.approve
          ∧ cs ≠ []) :=
  ⟨by decide,
   (approve_guard_triggers_refresh_iff sampleState "hello"
      sampleApproveResponse (Except.ok []) "2024-01-05" (by decide)).1⟩

/-- C7: every collaborator failure during a non-blank submission is caught
and converted into the single generic session error message; the state
transition is total (no rejection escapes either handler), and a failed
analysis records no analysis result (the prior state is kept except for the
error message). -/
theorem collaborator_failure_contained (st : PipelineState) (text : String)
    (refetch : Except Unit (List Schedule)) (resp : ScheduleChangeResponse)
    (today : String) (h : jsTrim text ≠ "") :
    (handleUserTextRequest st text (Except.error ()) refetch today).1
      = { st with error := some "Failed to process schedule change request." }
    ∧ (handleChangeRequest st text (Except.error ()) refetch today).1
      = { st with error := some "Failed to process schedule change request." }
    ∧ (refreshGuardText resp.analysis = true →
        (handleUserTextRequest st text (Except.ok resp) (Except.error ())
            today).1.error
          = some "Failed to process schedule change request."
        ∧ (handleUserTextRequest st text (Except.ok resp) (Except.error ())
            today).1.schedules = st.schedules) := by
  refine ⟨?_, ?_, ?_⟩
  · simp [handleUserTextRequest, h]
  · simp [handleChangeRequest, h]
  · intro hg
    rw [handleUserTextRequest_guard_true_err st text resp today h hg]
    exact ⟨rfl, rfl⟩

/-- Witness for C7: failing analysis and failing re-fetch at concrete
inputs. -/
theorem collaborator_failure_contained_witness :
    (handleUserTextRequest sampleState "hello" (Except.error ())
        (Except.ok []) "2024-01-05").1
      = { sampleState with
          error := some "Failed to process schedule change request." }
    ∧ (handleUserTextRequest sampleState "hello"
        (Except.ok sampleApproveResponse) (Except.error ())
        "2024-01-05").1.error
      = some "Failed to process schedule change request." :=
  ⟨(collaborator_failure_contained sampleState "hello" (Except.ok [])
      sampleApproveResponse "2024-01-05" (by decide)).1,
   ((collaborator_failure_contained sampleState "hello" (Except.ok [])
      sampleApproveResponse "2024-01-05" (by decide)).2.2 (by decide)).1⟩

/-- C8: the Reconciliation step (`apply`) commits through exactly one
persistence call covering the whole request, then re-fetches today's
schedule and rebuilds the display state by re-running the Identity Joiner on
the fetched rows — the resulting display state is a function of the
re-fetched data only, never an incremental patch from proposed edits; the
post-approve refresh in the text handler rebuilds display state the same
way. -/
theorem reconciliation_single_commit_and_rejoin (st : PipelineState)
    (text : String) (refetched : List Schedule) (today : String)
    (resp : ScheduleChangeResponse) :
    apply st text (Except.ok ()) (Except.ok refetched) today
      = Except.ok
          ({ st with schedules := joinSchedules st.employees refetched },
           [CollabCall.updateDBCall text,
            CollabCall.fetchSchedulesCall today])
    ∧ (jsTrim text ≠ "" → refreshGuardText resp.analysis = true →
        (handleUserTextRequest st text (Except.ok resp)
            (Except.ok refetched) today).1.schedules
          = joinSchedules st.employees refetched) := by
  constructor
  · rfl
  · intro h hg
    rw [handleUserTextRequest_guard_true_ok st text resp refetched today h hg]

/-- Witness for C8 at concrete inputs. -/
theorem reconciliation_single_commit_and_rejoin_witness :
    apply sampleState "hello" (Except.ok ()) (Except.ok [sampleSchedule])
        "2024-01-05"
      = Except.ok
          ({ sampleState with
              schedules := joinSchedules sampleState.employees
                [sampleSchedule] },
           [CollabCall.updateDBCall "hello",
            CollabCall.fetchSchedulesCall "2024-01-05"])
    ∧ (handleUserTextRequest sampleState "hello"
        (Except.ok sampleApproveResponse) (Except.ok [sampleSchedule])
        "2024-01-05").1.schedules
      = joinSchedules sampleState.employees [sampleSchedule] :=
  ⟨(reconciliation_single_commit_and_rejoin sampleState "hello"
      [sampleSchedule] "2024-01-05" sampleApproveResponse).1,
   (reconciliation_single_commit_and_rejoin sampleState "hello"
      [sampleSchedule] "2024-01-05" sampleApproveResponse).2
      (by decide) (by decide)⟩

/-- C3: for every entry passed to the Identity Joiner, if some employee in
the snapshot (with unique employee numbers, per the data model's
`employee_number (unique key)`) has `employee_number` equal to the entry's
`first_line_support` then the output's `employee_name` is that employee's
name; if no employee matches, it is exactly `"Unknown Employee"`. -/
theorem join_resolves_name_or_sentinel (employees : List Employee)
    (entry : Schedule)
    (huniq : employees.Pairwise
      (fun a b => a.employee_number ≠ b.employee_number)) :
    (∀ emp, emp ∈ employees →
      emp.employee_number = entry.first_line_support →
      (joinOne employees entry).employee_name = emp.name)
    ∧ ((∀ emp, emp ∈ employees →
        emp.employee_number ≠ entry.first_line_support) →
      (joinOne employees entry).employee_name = "Unknown Employee") :=
  ⟨fun emp hmem hnum => joinOne_match employees entry emp huniq hmem hnum,
   fun h => joinOne_no_match employees entry h⟩

/-- Witness for C3: Alice (E1) resolves on a matching row, and an empty
snapshot yields the sentinel. -/
theorem join_resolves_name_or_sentinel_witness :
    (joinOne [sampleEmployee] sampleSchedule).employee_name
      = sampleEmployee.name
    ∧ (joinOne [] sampleSchedule).employee_name = "Unknown Employee" :=
  ⟨(join_resolves_name_or_sentinel [sampleEmployee] sampleSchedule
      (by simp)).1 sampleEmployee (by simp) (by decide),
   (join_resolves_name_or_sentinel [] sampleSchedule (by simp)).2
      (by simp)⟩

/-- C4: the Identity Joiner returns exactly one output entry per input entry,
in input order: the output length equals the input length and the i-th
output is derived (by `joinOne`) from the i-th input. -/
theorem join_preserves_length_and_order (employees : List Employee)
    (entries : List Schedule) :
    (joinSchedules employees entries).length = entries.length
    ∧ ∀ i (h : i < entries.length)
        (h2 : i < (joinSchedules employees entries).length),
        (joinSchedules employees entries).get ⟨i, h2⟩
          = joinOne employees (entries.get ⟨i, h⟩) := by
  constructor
  · simp [joinSchedules]
  · intro i h h2
    simp [joinSchedules]

/-- Witness for C4 at a one-row input. -/
theorem join_preserves_length_and_order_witness :
    (joinSchedules [sampleEmployee] [sampleSchedule]).length
      = [sampleSchedule].length
    ∧ (joinSchedules [sampleEmployee] [sampleSchedule]).get ⟨0, by decide⟩
      = joinOne [sampleEmployee] ([sampleSchedule].get ⟨0, by decide⟩) :=
  ⟨(join_preserves_length_and_order [sampleEmployee] [sampleSchedule]).1,
   (join_preserves_length_and_order [sampleEmployee] [sampleSchedule]).2
      0 (by decide) (by decide)⟩

/-- C5: submitting blank or whitespace-only text through either entry point
makes no collaborator call, raises no error, and leaves the whole state
unchanged (a silent no-op). -/
theorem blank_request_is_silent_noop (st : PipelineState) (text : String)
    (analyzeC analyzeU : Except Unit ScheduleChangeResponse)
    (refetchC refetchU : Except Unit (List Schedule))
    (todayC todayU : String) (h : jsTrim text = "") :
    handleChangeRequest st text analyzeC refetchC todayC = (st, [])
    ∧ handleUserTextRequest st text analyzeU refetchU todayU = (st, []) := by
  constructor <;> simp [handleChangeRequest, handleUserTextRequest, h]

/-- Witness for C5 at `"   "` (whitespace-only). -/
theorem blank_request_is_silent_noop_witness :
    handleChangeRequest sampleState "   " (Except.error ()) (Except.ok [])
        "2024-01-05" = (sampleState, [])
    ∧ handleUserTextRequest sampleState "   " (Except.error ()) (Except.ok [])
        "2024-01-05" = (sampleState, []) :=
  blank_request_is_silent_noop sampleState "   " (Except.error ())
    (Except.error ()) (Except.ok []) (Except.ok []) "2024-01-05" "2024-01-05"
    (by decide)

/-- C6: the structured and the freeform submission handlers evaluate the very
same approve-guard predicate, and for every analysis outcome they produce the
same displayed schedules and trigger the schedule re-fetch under identical
conditions. -/
theorem entry_points_apply_same_guard (st : PipelineState) (text : String)
    (analyze : Except Unit ScheduleChangeResponse)
    (refetch : Except Unit (List Schedule)) (today : String) :
    refreshGuardChange = refreshGuardText
    ∧ (handleChangeRequest st text analyze refetch today).1.schedules
      = (handleUserTextRequest st text analyze refetch today).1.schedules
    ∧ (CollabCall.fetchSchedulesCall today
        ∈ (handleChangeRequest st text analyze refetch today).2
      ↔ CollabCall.fetchSchedulesCall today
        ∈ (handleUserTextRequest st text analyze refetch today).2) := by
  refine ⟨refreshGuardChange_eq_text, ?_, ?_⟩ <;>
  · unfold handleChangeRequest handleUserTextRequest
    rw [refreshGuardChange_eq_text]
    by_cases hb : jsTrim text = "" <;> simp [hb]
    cases analyze with
    | error e => simp
    | ok response =>
        by_cases hg : refreshGuardText response.analysis <;> simp [hg]
        cases refetch with
        | error e => simp
        | ok schedulesData => simp

/-- C9 counterexample: joining against an employee whose `name` is the empty
string produces a `DisplayScheduleEntry` whose `employee_name` is the empty
string — refuting "the derived `employee_name` field is always a non-empty
string" at a concrete input of the initial-load operation. -/
theorem employee_name_nonempty_counterexample :
    (loadData
        { employees := [], schedules := [], rules := none,
          changeResponse := none, error := none, openModal := false }
        (Except.ok
          ([{ name := "", employee_number := "E1",
              first_line_support_count := 0, known_absences := [],
              metadata := [] }],
           [{ date := "2024-01-05", first_line_support := "E1" }],
           { max_days_per_week := 5, preferred_balance := 1 }))
        "2024-01-05").1.schedules
      = [{ date := "2024-01-05"
           first_line_support := "E1"
           employee_name := "" }] := by
  decide

/-- C9 amended: every `employee_name` produced by the Identity Joiner is
defined and equals either the name of an employee from the snapshot or the
fixed `"Unknown Employee"` sentinel; it is moreover non-empty provided every
employee in the snapshot has a non-empty name (an employee whose `name` is
`""` propagates the empty string). -/
theorem employee_name_resolved_or_sentinel (employees : List Employee)
    (entry : Schedule) :
    ((∃ emp, emp ∈ employees
        ∧ (joinOne employees entry).employee_name = emp.name)
      ∨ (joinOne employees entry).employee_name = "Unknown Employee")
    ∧ ((∀ emp, emp ∈ employees → emp.name ≠ "") →
        (joinOne employees entry).employee_name ≠ "") := by
  constructor
  · exact joinOne_name_cases employees entry
  · intro hnames
    rcases joinOne_name_cases employees entry with ⟨emp, hmem, hname⟩ | hsent
    · rw [hname]; exact hnames emp hmem
    · rw [hsent]; decide

/-- Witness for C9 amended at the Alice snapshot. -/
theorem employee_name_resolved_or_sentinel_witness :
    ((∃ emp, emp ∈ [sampleEmployee]
        ∧ (joinOne [sampleEmployee] sampleSchedule).employee_name = emp.name)
      ∨ (joinOne [sampleEmployee] sampleSchedule).employee_name
          = "Unknown Employee")
    ∧ (joinOne [sampleEmployee] sampleSchedule).employee_name ≠ "" :=
  ⟨(employee_name_resolved_or_sentinel [sampleEmployee] sampleSchedule).1,
   (employee_name_resolved_or_sentinel [sampleEmployee] sampleSchedule).2
      (by decide)⟩

/-- C10: no submission handler mutates the employees snapshot and none
re-fetches employees; the standalone Reconciliation keeps the snapshot too;
consequently the post-approve re-join resolves names against the snapshot
from initial load, and any re-fetched row whose `first_line_support` has no
employee in that snapshot is displayed as `"Unknown Employee"`. -/
theorem employees_snapshot_frame (st : PipelineState) (text : String)
    (analyze : Except Unit ScheduleChangeResponse)
    (refetch : Except Unit (List Schedule)) (today : String)
    (resp : ScheduleChangeResponse) (refetched : List Schedule) :
    (handleUserTextRequest st text analyze refetch today).1.employees
      = st.employees
    ∧ (handleChangeRequest st text analyze refetch today).1.employees
      = st.employees
    ∧ CollabCall.fetchEmployeesCall
        ∉ (handleUserTextRequest st text analyze refetch today).2
    ∧ CollabCall.fetchEmployeesCall
        ∉ (handleChangeRequest st text analyze refetch today).2
    ∧ (∀ out, apply st text (Except.ok ()) (Except.ok refetched) today
        = Except.ok out → out.1.employees = st.employees)
    ∧ (jsTrim text ≠ "" → refreshGuardText resp.analysis = true →
        ∀ s, s ∈ refetched →
          joinOne st.employees s
            ∈ (handleUserTextRequest st text (Except.ok resp)
                (Except.ok refetched) today).1.schedules
          ∧ ((∀ emp, emp ∈ st.employees →
                emp.employee_number ≠ s.first_line_support) →
              (joinOne st.employees s).employee_name
                = "Unknown Employee")) := by
  refine ⟨?_, ?_, ?_, ?_, ?_, ?_⟩
  · unfold handleUserTextRequest
    by_cases hb : jsTrim text = "" <;> simp [hb]
    cases analyze with
    | error e => simp
    | ok response =>
        by_cases hg : refreshGuardText response.analysis <;> simp [hg]
        cases refetch with
        | error e => simp
        | ok sd => simp
  · unfold handleChangeRequest
    by_cases hb : jsTrim text = "" <;> simp [hb]
    cases analyze with
    | error e => simp
    | ok response =>
        by_cases hg : refreshGuardChange response.analysis <;> simp [hg]
        cases refetch with
        | error e => simp
        | ok sd => simp
  · unfold handleUserTextRequest
    by_cases hb : jsTrim text = "" <;> simp [hb]
    cases analyze with
    | error e => simp
    | ok response =>
        by_cases hg : refreshGuardText response.analysis <;> simp [hg]
        cases refetch with
        | error e => simp
        | ok sd => simp
  · unfold handleChangeRequest
    by_cases hb : jsTrim text = "" <;> simp [hb]
    cases analyze with
    | error e => simp
    | ok response =>
        by_cases hg : refreshGuardChange response.analysis <;> simp [hg]
        cases refetch with
        | error e => simp
        | ok sd => simp
  · intro out hout
    have h1 : ({ st with schedules := joinSchedules st.employees refetched },
        [CollabCall.updateDBCall text,
         CollabCall.fetchSchedulesCall today]) = out := by
      injection hout
    rw [← h1]
  · intro h hg s hs
    rw [handleUserTextRequest_guard_true_ok st text resp refetched today h hg]
    exact ⟨List.mem_map_of_mem (joinOne st.employees) hs,
      fun hnone => joinOne_no_match st.employees s hnone⟩

/-- Witness for C10: a row for an employee number absent from the load-time
snapshot is joined to the sentinel after an approved refresh. -/
theorem employees_snapshot_frame_witness :
    (handleUserTextRequest sampleState "hello"
        (Except.ok sampleApproveResponse)
        (Except.ok [{ date := "2024-01-06", first_line_support := "E9" }])
        "2024-01-05").1.employees = sampleState.employees
    ∧ (joinOne sampleState.employees
        { date := "2024-01-06", first_line_support := "E9" }).employee_name
      = "Unknown Employee" :=
  ⟨(employees_snapshot_frame sampleState "hello"
      (Except.ok sampleApproveResponse)
      (Except.ok [{ date := "2024-01-06", first_line_support := "E9" }])
      "2024-01-05" sampleApproveResponse
      [{ date := "2024-01-06", first_line_support := "E9" }]).1,
   ((employees_snapshot_frame sampleState "hello"
      (Except.ok sampleApproveResponse)
      (Except.ok [{ date := "2024-01-06", first_line_support := "E9" }])
      "2024-01-05" sampleApproveResponse
      [{ date := "2024-01-06", first_line_support := "E9" }]).2.2.2.2.2
      (by decide) (by decide)
      { date := "2024-01-06", first_line_support := "E9" }
      (by simp)).2 (by decide)⟩

/-- Any failing component of a `schedulechange` payload makes the whole
decode fail with `MalformedResponse`. -/
lemma decode_schedulechange_components (p : RawPayload)
    (ht : p.type = some "schedulechange")
    (h : decodeRecommendation p.recommendation
          = Except.error DecodeError.malformedResponse
        ∨ decodeChanges p.changes
          = Except.error DecodeError.malformedResponse) :
    decodeAIResponse p = Except.error DecodeError.malformedResponse := by
  cases hb : decodeBase p with
  | error e =>
      cases e
      simp [decodeAIResponse, ht, hb]
  | ok b =>
      cases hc : decodeChanges p.changes with
      | error e =>
          cases e
          simp [decodeAIResponse, ht, hb, hc]
      | ok cs =>
          cases hr : decodeRecommendation p.recommendation with
          | error e =>
              cases e
              simp [decodeAIResponse, ht, hb, hc, hr]
          | ok r =>
              rcases h with hrec | hch
              · rw [hr] at hrec
                exact Except.noConfusion hrec
              · rw [hc] at hch
                exact Except.noConfusion hch

/-- C2: decoding fails with `MalformedResponse` whenever `type` is missing or
unknown, or a `schedulechange` payload lacks `recommendation`, carries an
unknown `recommendation` literal, or carries a non-sequence `changes`; an
absent required field is never defaulted. -/
theorem malformed_payload_always_rejected (p : RawPayload)
    (h : p.type = none
      ∨ (∀ t, p.type = some t →
          t ≠ "question" ∧ t ≠ "other" ∧ t ≠ "complaint"
            ∧ t ≠ "schedulechange")
      ∨ (p.type = some "schedulechange" ∧ p.recommendation = none)
      ∨ (p.type = some "schedulechange" ∧
          ∀ r, p.recommendation = some r →
            r ≠ "approve" ∧ r ≠ "deny" ∧ r ≠ "discuss")
      ∨ (p.type = some "schedulechange" ∧
          ∀ cs, p.changes ≠ some (RawChangesField.seq cs))) :
    decodeAIResponse p = Except.error DecodeError.malformedResponse := by
  rcases h with h1 | h2 | h3 | h4 | h5
  · simp [decodeAIResponse, h1]
  · cases ht : p.type with
    | none => simp [decodeAIResponse, ht]
    | some t =>
        obtain ⟨n1, n2, n3, n4⟩ := h2 t ht
        simp [decodeAIResponse, ht, n1, n2, n3, n4]
  · refine decode_schedulechange_components p h3.1 (Or.inl ?_)
    simp [decodeRecommendation, h3.2]
  · refine decode_schedulechange_components p h4.1 (Or.inl ?_)
    cases hr : p.recommendation with
    | none => simp [decodeRecommendation]
    | some r =>
        obtain ⟨m1, m2, m3⟩ := h4.2 r hr
        simp [decodeRecommendation, m1, m2, m3]
  · refine decode_schedulechange_components p h5.1 (Or.inr ?_)
    cases hch : p.changes with
    | none => simp [decodeChanges]
    | some f =>
        cases f with
        | seq items => exact absurd hch (h5.2 items)
        | notSeq => simp [decodeChanges]

/-- Witness for C2: a `schedulechange` payload missing `recommendation` is
rejected. -/
theorem malformed_payload_always_rejected_witness :
    decodeAIResponse
      { type := some "schedulechange"
        thoughts := some "t"
        original_query := some "q"
        response := some "r"
        reasoning := some "w"
        solution_proposal := none
        recommendation := none
        changes := some (RawChangesField.seq []) }
      = Except.error DecodeError.malformedResponse :=
  malformed_payload_always_rejected _ (Or.inr (Or.inr (Or.inl ⟨rfl, rfl⟩)))

end Scheduling
